import Mathlib

/-!
Shallow embedding of the `discord_http` excerpt (src/discord_http/mentions.py
and src/discord_http/member.py) and proofs about it.

Modelling conventions:
* Snowflake identifiers are `Int` (Python ints).
* A Python `datetime` is modelled as an integer number of seconds since the
  epoch; `timedelta` as an integer number of seconds; `datetime.isoformat`
  as an injective rendering to `String`.
* The `MISSING` sentinel for optional keyword arguments is modelled by an
  outer `Option`: `none` = argument not supplied, `some v` = argument
  explicitly supplied with value `v` (which may itself be a Python `None`,
  modelled by an inner `Option`).
* The external request dispatcher (`DiscordAPI.query`) is modelled as an
  explicit argument: methods that issue requests return the request value
  they would pass to it (or, for the multi-request loop `add_roles`, the
  trace of requests issued, given a dispatcher function).
* Python exceptions are modelled with `Except`: `ValueError` /
  `InvalidArgument`, `TypeError` and `AttributeError` become error values.
-/

namespace DiscordHttp

/-- Rendering of a Python `datetime` (modelled as epoch seconds) by
`datetime.isoformat()`: an injective string rendering of the instant. -/
def isoformat (t : Int) : String :=
  toString t

/-! ## mentions.py : AllowedMentions -/

/-- The value held by the `users` / `roles` fields of `AllowedMentions`:
Python type `Optional[Union[bool, list[Snowflake]]]`. -/
inductive MentionSetting where
  | flag (b : Bool)
  | ids (l : List Int)
  | null
deriving DecidableEq, Repr

/-- `AllowedMentions` from mentions.py: mention-suppression policy value
object.  `reply_user` is the stored attribute name for the `replied_user`
constructor argument. -/
structure AllowedMentions where
  everyone : Bool
  users : MentionSetting
  roles : MentionSetting
  reply_user : Bool
deriving DecidableEq, Repr

/-- The dict produced by `AllowedMentions.to_dict`: optional `users`,
`roles`, `replied_user` keys plus the always-present `parse` list. -/
structure MentionsPayload where
  users : Option (List Int)
  roles : Option (List Int)
  replied_user : Option Bool
  parse : List String
deriving DecidableEq, Repr

/-- `AllowedMentions.all()`: every flag true. -/
def AllowedMentions.all : AllowedMentions :=
  ⟨true, .flag true, .flag true, true⟩

/-- `AllowedMentions.none()`: every flag false. -/
def AllowedMentions.none : AllowedMentions :=
  ⟨false, .flag false, .flag false, false⟩

/-- `AllowedMentions.to_dict` from mentions.py, line for line: build the
`parse` list (everyone, then users, then roles), emit explicit id lists
under `users`/`roles` keys, and `replied_user: true` when `reply_user`. -/
def AllowedMentions.to_dict (m : AllowedMentions) : MentionsPayload :=
  let parse0 : List String := if m.everyone then ["everyone"] else []
  let usersKey : Option (List Int) :=
    match m.users with
    | .ids l => some l
    | _ => Option.none
  let parse1 : List String :=
    match m.users with
    | .ids _ => parse0
    | .flag true => parse0 ++ ["users"]
    | _ => parse0
  let rolesKey : Option (List Int) :=
    match m.roles with
    | .ids l => some l
    | _ => Option.none
  let parse2 : List String :=
    match m.roles with
    | .ids _ => parse1
    | .flag true => parse1 ++ ["roles"]
    | _ => parse1
  { users := usersKey
    roles := rolesKey
    replied_user := if m.reply_user then some true else Option.none
    parse := parse2 }

/-! ## member.py : PartialMember and its operations -/

/-- Modelled from the spec: `PartialBase` (object.py, not under src/) is a
minimal value object holding a 64-bit numeric identifier, with equality and
string conversion by that identifier. -/
structure PartialBase where
  id : Int
deriving DecidableEq, Repr

/-- Modelled from the spec: `PartialBase` equality is by the numeric
identifier (object.py is not under src/). -/
def PartialBase.idEq (a b : PartialBase) : Bool :=
  a.id == b.id

/-- `PartialMember` from member.py: identifier-only handle, holding its own
id and the guild id (the dispatcher reference `_state` is external and is
passed explicitly to the operations that use it). -/
structure PartialMember where
  id : Int
  guild_id : Int
deriving DecidableEq, Repr

/-- `PartialMember.__str__` from member.py: `str(self.id)`. -/
def PartialMember.str (m : PartialMember) : String :=
  toString m.id

/-- `PartialMember.__eq__` (inherited from `PartialBase`).  Modelled from
the spec: equality by the numeric identifier. -/
def PartialMember.idEq (a b : PartialMember) : Bool :=
  a.id == b.id

/-- A request handed to the dispatcher by `PartialMember.ban`: method,
path, optional audit reason and the JSON payload, which is either empty or
a single `delete_message_seconds` field (`none` = field absent). -/
structure BanRequest where
  method : String
  path : String
  reason : Option String
  json : Option Int
deriving DecidableEq, Repr

/-- Path `/guilds/{guild_id}/bans/{id}` used by `PartialMember.ban`. -/
def banPath (guild_id uid : Int) : String :=
  "/guilds/" ++ toString guild_id ++ "/bans/" ++ toString uid

/-- `PartialMember.ban` from member.py: validates the two deletion-window
arguments in source order (both non-zero, then the days range `range(0,8)`,
then the seconds range `range(0,604801)`), converts days to seconds via
`timedelta(days=d).total_seconds()`, and otherwise returns the `PUT`
request it hands to the dispatcher.  A Python int is truthy iff non-zero;
`.error` models the raised `ValueError` (the spec's `InvalidArgument`). -/
def PartialMember.ban (m : PartialMember) (reason : Option String)
    (delete_message_days delete_message_seconds : Int) :
    Except String BanRequest := do
  if delete_message_days ≠ 0 ∧ delete_message_seconds ≠ 0 then
    throw "Cannot specify both delete_message_days and delete_message_seconds"
  let fromDays : Option Int ←
    if delete_message_days ≠ 0 then
      if ¬ (0 ≤ delete_message_days ∧ delete_message_days < 8) then
        throw "delete_message_days must be between 0 and 7"
      else
        pure (some (delete_message_days * 86400))
    else
      pure Option.none
  let payload : Option Int ←
    if delete_message_seconds ≠ 0 then
      if ¬ (0 ≤ delete_message_seconds ∧ delete_message_seconds < 604801) then
        throw "delete_message_seconds must be between 0 and 604,800"
      else
        pure (some delete_message_seconds)
    else
      pure fromDays
  return { method := "PUT"
           path := banPath m.guild_id m.id
           reason := reason
           json := payload }

/-! ### PartialMember.edit -/

/-- The value supplied for `communication_disabled_until`, one case per
runtime type the Python `match` statement distinguishes:
`timedelta` (a duration in seconds), `datetime` (an absolute instant),
`int` (a second count), `None`, or any other type. -/
inductive TimeoutArg where
  | delta (seconds : Int)
  | dt (t : Int)
  | int (n : Int)
  | null
  | other
deriving DecidableEq, Repr

/-- Keyword arguments of `PartialMember.edit`.  Outer `Option` is the
`MISSING` sentinel (`none` = not supplied); the inner `Option` is a Python
`None` value.  Role entries are already resolved to ids (`role.id` for
role objects, the raw int otherwise, as in the list comprehension). -/
structure EditArgs where
  nick : Option (Option String)
  roles : Option (Option (List Int))
  mute : Option (Option Bool)
  deaf : Option (Option Bool)
  communication_disabled_until : Option TimeoutArg
  channel_id : Option (Option Int)
deriving DecidableEq, Repr

/-- The `EditArgs` value with every argument left at `MISSING`. -/
def EditArgs.missing : EditArgs :=
  ⟨Option.none, Option.none, Option.none, Option.none, Option.none, Option.none⟩

/-- The sparse PATCH payload built by `PartialMember.edit`: a `none` field
means the key is absent from the dict. -/
structure EditPayload where
  nick : Option (Option String)
  roles : Option (List Int)
  mute : Option (Option Bool)
  deaf : Option (Option Bool)
  channel_id : Option (Option Int)
  communication_disabled_until : Option String
deriving DecidableEq, Repr

/-- Errors `PartialMember.edit` can raise while building its payload:
`TypeError` from the `case _` arm, and the `AttributeError` from calling
`.isoformat()` on `None`. -/
inductive EditError where
  | typeError
  | attributeError
deriving DecidableEq, Repr

/-- The `match communication_disabled_until` statement of
`PartialMember.edit`: resolve the argument to `_timeout_value`
(an absolute instant or `None`), in source arm order. -/
def resolveTimeout (now : Int) : TimeoutArg → Except EditError (Option Int)
  | .delta s => .ok (some (now + s))
  | .dt t => .ok (some t)
  | .int n => .ok (some (now + n))
  | .null => .ok Option.none
  | .other => .error .typeError

/-- The payload-building part of `PartialMember.edit` from member.py:
each key is added iff its argument is not `MISSING`, except `roles` which
is added only when the supplied value is an actual list
(`isinstance(roles, list)`).  When `communication_disabled_until` is
supplied, the resolved value is rendered with `.isoformat()` — which, as
in the source, is applied unconditionally, so a resolved `None` raises
`AttributeError`. -/
def buildEditPayload (now : Int) (a : EditArgs) : Except EditError EditPayload :=
  let base : EditPayload :=
    { nick := a.nick
      roles := match a.roles with
               | some (some l) => some l
               | _ => Option.none
      mute := a.mute
      deaf := a.deaf
      channel_id := a.channel_id
      communication_disabled_until := Option.none }
  match a.communication_disabled_until with
  | Option.none => .ok base
  | some t =>
    match resolveTimeout now t with
    | .error e => .error e
    | .ok (some instant) =>
        .ok { base with communication_disabled_until := some (isoformat instant) }
    | .ok Option.none => .error .attributeError

/-! ### PartialMember.add_roles -/

/-- A role argument to `add_roles` / `remove_roles`: a role object
(`PartialRole` / `Role`, of which only the id matters here) or a raw id. -/
inductive RoleRef where
  | obj (id : Int)
  | raw (id : Int)
deriving DecidableEq, Repr

/-- The `if isinstance(role, (PartialRole, Role)): role = role.id`
resolution at the top of the loop body. -/
def RoleRef.resolve : RoleRef → Int
  | .obj i => i
  | .raw i => i

/-- A request issued by the role loops: method, path, audit reason. -/
structure RoleRequest where
  method : String
  path : String
  reason : Option String
deriving DecidableEq, Repr

/-- Path `/guilds/{guild_id}/members/{id}/roles/{role}`. -/
def rolePath (guild_id uid role : Int) : String :=
  "/guilds/" ++ toString guild_id ++ "/members/" ++ toString uid ++
    "/roles/" ++ toString role

/-- The `PUT` request `add_roles` issues for one role argument. -/
def PartialMember.roleRequest (m : PartialMember) (reason : Option String)
    (r : RoleRef) : RoleRequest :=
  { method := "PUT", path := rolePath m.guild_id m.id r.resolve, reason := reason }

/-- `PartialMember.add_roles` from member.py, with the dispatcher made
explicit: one awaited `PUT` per role argument, in order.  Returns the
trace of requests actually handed to the dispatcher together with the
propagated error, if any: the loop body awaits each call, so a failure
stops the loop with that error and no later request is issued. -/
def PartialMember.add_roles {ε : Type} (m : PartialMember)
    (disp : RoleRequest → Except ε Unit) (reason : Option String) :
    List RoleRef → List RoleRequest × Option ε
  | [] => ([], Option.none)
  | r :: rs =>
    let req := m.roleRequest reason r
    match disp req with
    | .error e => ([req], some e)
    | .ok _ =>
      let rest := m.add_roles disp reason rs
      (req :: rest.1, rest.2)

/-! ## member.py : Member, ThreadMember -/

/-- The `data["user"]` sub-document a `Member` is hydrated from, reduced to
the fields this excerpt reads: id, username, optional global display name.
(`User.__init__` itself lives in user.py, not under src/.) -/
structure UserData where
  id : Int
  name : String
  global_name : Option String
deriving DecidableEq, Repr

/-- The embedded user wrapper held by a `Member`.  Its construction copies
the payload fields; only id, username and global display name matter to the
claims about this excerpt. -/
structure User where
  id : Int
  name : String
  global_name : Option String
deriving DecidableEq, Repr

/-- Modelled from the spec: `User` is a wrapper built on the identifier
base (user.py is not under src/), so its string conversion is by the
numeric identifier. -/
def User.str (u : User) : String :=
  toString u.id

/-- `User(state=state, data=data["user"])` as far as this excerpt observes
it: a wrapper carrying the payload's id, username and global name. -/
def User.ofData (d : UserData) : User :=
  ⟨d.id, d.name, d.global_name⟩

/-- `PartialRole(state=..., guild_id=..., role_id=...)` reduced to its two
identifier fields. -/
structure PartialRoleRef where
  guild_id : Int
  id : Int
deriving DecidableEq, Repr

/-- The JSON document a `Member` is hydrated from, with the fields
`Member.__init__` reads, already typed (JSON decoding is out of scope):
`user`, `flags`, optional `pending`, optional `permissions`, optional
`nick`, `joined_at` (modelled post-`parse_time` as epoch seconds),
`roles`, optional `avatar` hash. -/
structure MemberData where
  user : UserData
  flags : Int
  pending : Option Bool
  permissions : Option Int
  nick : Option String
  joined_at : Int
  roles : List Int
  avatar : Option String
deriving DecidableEq, Repr

/-- `Member` from member.py: hydrated view, a `PartialMember` plus typed
payload fields and the embedded user wrapper.  `avatar` holds the guild
avatar asset, modelled by its hash. -/
structure Member where
  id : Int
  guild_id : Int
  user : User
  avatar : Option String
  flags : Int
  pending : Bool
  raw_permissions : Option Int
  nick : Option String
  joined_at : Int
  roles : List PartialRoleRef
deriving DecidableEq, Repr

/-- `Member.__init__` from member.py: `super().__init__` with
`guild_id=guild.id` and `user_id=data["user"]["id"]`, the embedded
`User(data["user"])`, `pending` defaulting to `False`, the role list
wrapped as guild-scoped role handles, and `_from_data` resolving the
guild avatar only when the hash is truthy (non-empty). -/
def Member.ofData (guild_id : Int) (data : MemberData) : Member :=
  { id := data.user.id
    guild_id := guild_id
    user := User.ofData data.user
    avatar := match data.avatar with
              | some h => if h ≠ "" then some h else Option.none
              | Option.none => Option.none
    flags := data.flags
    pending := data.pending.getD false
    raw_permissions := data.permissions
    nick := data.nick
    joined_at := data.joined_at
    roles := data.roles.map (fun r => ⟨guild_id, r⟩) }

/-- `Member.__str__` from member.py: `str(self._user)`. -/
def Member.str (m : Member) : String :=
  User.str m.user

/-- `Member.__eq__` (inherited from `PartialBase`).  Modelled from the
spec: equality by the numeric identifier. -/
def Member.idEq (a b : Member) : Bool :=
  a.id == b.id

/-- Python string truthiness for the `or` chain of `display_name`:
`None` and the empty string are falsy. -/
def strTruthy : Option String → Bool
  | Option.none => false
  | some s => s ≠ ""

/-- `Member.display_name` from member.py:
`self.nick or self.global_name or self.name`, where `global_name` and
`name` delegate to the embedded user. -/
def Member.display_name (m : Member) : String :=
  if strTruthy m.nick then m.nick.getD ""
  else if strTruthy m.user.global_name then m.user.global_name.getD ""
  else m.user.name

/-- The tail of `PartialMember.edit`: after the payload is built, the
PATCH response is hydrated into a fresh `Member` with
`Member(state=..., guild=self.guild, data=r.response)`; the receiver is
never written to.  `resp` is the dispatcher's parsed response body. -/
def PartialMember.edit (m : PartialMember) (now : Int) (a : EditArgs)
    (resp : MemberData) : Except EditError (EditPayload × Member) :=
  match buildEditPayload now a with
  | .error e => .error e
  | .ok payload => .ok (payload, Member.ofData m.guild_id resp)

/-- `ThreadMember` from member.py: identifier, flags bitset, join
timestamp (modelled post-`parse_time` as epoch seconds). -/
structure ThreadMember where
  id : Int
  flags : Int
  join_timestamp : Int
deriving DecidableEq, Repr

/-- `ThreadMember.__str__` from member.py: `str(self.id)`. -/
def ThreadMember.str (t : ThreadMember) : String :=
  toString t.id

/-- `ThreadMember.__eq__` (inherited from `PartialBase`).  Modelled from
the spec: equality by the numeric identifier. -/
def ThreadMember.idEq (a b : ThreadMember) : Bool :=
  a.id == b.id

/-! ## Theorems -/

/-- Helper: closed form of `PartialMember.ban` as a case split.  The
both-non-zero guard makes the two `payload` writes mutually exclusive, so
the sequential dict updates collapse to this nest of conditionals. -/
theorem ban_eq (m : PartialMember) (reason : Option String) (d s : Int) :
    m.ban reason d s =
      if d ≠ 0 ∧ s ≠ 0 then
        .error "Cannot specify both delete_message_days and delete_message_seconds"
      else if d ≠ 0 then
        if ¬ (0 ≤ d ∧ d < 8) then
          .error "delete_message_days must be between 0 and 7"
        else if s ≠ 0 then
          if ¬ (0 ≤ s ∧ s < 604801) then
            .error "delete_message_seconds must be between 0 and 604,800"
          else
            .ok { method := "PUT", path := banPath m.guild_id m.id,
                  reason := reason, json := some s }
        else
          .ok { method := "PUT", path := banPath m.guild_id m.id,
                reason := reason, json := some (d * 86400) }
      else if s ≠ 0 then
        if ¬ (0 ≤ s ∧ s < 604801) then
          .error "delete_message_seconds must be between 0 and 604,800"
        else
          .ok { method := "PUT", path := banPath m.guild_id m.id,
                reason := reason, json := some s }
      else
        .ok { method := "PUT", path := banPath m.guild_id m.id,
              reason := reason, json := Option.none } := by
  simp only [PartialMember.ban]
  split_ifs <;> rfl

/-- C1 (amended): with `delete_message_seconds = 0`, for
`delete_message_days` in 1–7 `ban` hands the dispatcher a
`PUT /guilds/{guild}/bans/{id}` request whose payload field
`delete_message_seconds` equals `delete_message_days * 86400`; for
`delete_message_days = 0` the same `PUT` request is issued but with an
empty payload — the `delete_message_seconds` field is absent. -/
theorem claim_C1 (m : PartialMember) (reason : Option String) (d : Int)
    (h1 : 1 ≤ d) (h7 : d ≤ 7) :
    m.ban reason d 0 =
      .ok { method := "PUT", path := banPath m.guild_id m.id,
            reason := reason, json := some (d * 86400) } ∧
    m.ban reason 0 0 =
      .ok { method := "PUT", path := banPath m.guild_id m.id,
            reason := reason, json := Option.none } := by
  rw [ban_eq, ban_eq]
  constructor
  · have hd : d ≠ 0 := by omega
    have hr : 0 ≤ d ∧ d < 8 := by omega
    simp [hd, hr]
  · simp

/-- Witness for C1, at `delete_message_days = 3` on member 2 of guild 1. -/
theorem claim_C1_witness :
    PartialMember.ban ⟨2, 1⟩ Option.none 3 0 =
      .ok { method := "PUT", path := banPath 1 2,
            reason := Option.none, json := some (3 * 86400) } ∧
    PartialMember.ban ⟨2, 1⟩ Option.none 0 0 =
      .ok { method := "PUT", path := banPath 1 2,
            reason := Option.none, json := Option.none } :=
  claim_C1 ⟨2, 1⟩ Option.none 3 (by norm_num) (by norm_num)

/-- Counterexample to C1 as stated: at `delete_message_days = 0` (which
the claim includes, since it ranges over 0–7) the dispatched payload has
no `delete_message_seconds` field at all, rather than the field with
value `0 * 86400 = 0`. -/
theorem claim_C1_counterexample :
    PartialMember.ban ⟨2, 1⟩ Option.none 0 0 =
      .ok { method := "PUT", path := "/guilds/1/bans/2",
            reason := Option.none, json := Option.none } ∧
    (Option.none : Option Int) ≠ some (0 * 86400) := by
  refine ⟨?_, by decide⟩
  rfl

/-- C3: `ban` raises the local validation error (modelled by `.error`,
issuing no request to the dispatcher) exactly when both deletion-window
arguments are non-zero, or `delete_message_days` lies outside 0–7, or
`delete_message_seconds` lies outside 0–604800; in every other case it
returns the request without a local error. -/
theorem claim_C3 (m : PartialMember) (reason : Option String) (d s : Int) :
    (∃ e, m.ban reason d s = .error e) ↔
      (d ≠ 0 ∧ s ≠ 0) ∨ (d < 0 ∨ 7 < d) ∨ (s < 0 ∨ 604800 < s) := by
  rw [ban_eq]
  split_ifs <;> simp <;> omega

/-- C2 (divergence at the failing input): evaluating the payload builder
of `PartialMember.edit` at `now = 1000`.  A `timedelta` or an `int` is
added to the current time and rendered with `.isoformat()`, and any other
type raises `TypeError`, as the claim says — but an explicit `None`, for
which the claim says the payload gets `null`, instead crashes with
`AttributeError`, because the source applies `.isoformat()`
unconditionally to the resolved value. -/
theorem claim_C2 :
    buildEditPayload 1000
      ⟨Option.none, Option.none, Option.none, Option.none, some .null, Option.none⟩ =
      .error .attributeError ∧
    buildEditPayload 1000
      ⟨Option.none, Option.none, Option.none, Option.none, some (.int 3600), Option.none⟩ =
      .ok ⟨Option.none, Option.none, Option.none, Option.none, Option.none,
           some (isoformat 4600)⟩ ∧
    buildEditPayload 1000
      ⟨Option.none, Option.none, Option.none, Option.none, some (.delta 60), Option.none⟩ =
      .ok ⟨Option.none, Option.none, Option.none, Option.none, Option.none,
           some (isoformat 1060)⟩ ∧
    buildEditPayload 1000
      ⟨Option.none, Option.none, Option.none, Option.none, some (.dt 777), Option.none⟩ =
      .ok ⟨Option.none, Option.none, Option.none, Option.none, Option.none,
           some (isoformat 777)⟩ ∧
    buildEditPayload 1000
      ⟨Option.none, Option.none, Option.none, Option.none, some .other, Option.none⟩ =
      .error .typeError := by
  refine ⟨rfl, rfl, rfl, rfl, rfl⟩

/-- C4: `to_dict` puts each of `"everyone"`, `"users"`, `"roles"` into
`parse` exactly when the corresponding field is the boolean `true`; an
explicit id list is emitted under the `users`/`roles` key instead, with
the `parse` entry skipped; `reply_user = true` adds `replied_user: true`;
and the two presets serialise as the claim states. -/
theorem claim_C4 :
    (∀ m : AllowedMentions,
      ("everyone" ∈ m.to_dict.parse ↔ m.everyone = true) ∧
      ("users" ∈ m.to_dict.parse ↔ m.users = .flag true) ∧
      ("roles" ∈ m.to_dict.parse ↔ m.roles = .flag true) ∧
      (m.to_dict.users = match m.users with
                         | .ids l => some l
                         | _ => Option.none) ∧
      (m.to_dict.roles = match m.roles with
                         | .ids l => some l
                         | _ => Option.none) ∧
      (m.to_dict.replied_user = if m.reply_user then some true else Option.none)) ∧
    AllowedMentions.all.to_dict =
      ⟨Option.none, Option.none, some true, ["everyone", "users", "roles"]⟩ ∧
    AllowedMentions.none.to_dict =
      ⟨Option.none, Option.none, Option.none, []⟩ := by
  refine ⟨?_, rfl, rfl⟩
  intro m
  rcases m with ⟨e, u, r, ru⟩
  rcases u with b1 | l1 | _ <;>
    rcases r with b2 | l2 | _ <;>
    cases e <;> cases ru <;>
    first
    | (cases b1 <;> cases b2 <;> simp [AllowedMentions.to_dict])
    | (cases b1 <;> simp [AllowedMentions.to_dict])
    | (cases b2 <;> simp [AllowedMentions.to_dict])
    | simp [AllowedMentions.to_dict]

/-- C6 (amended): when `PartialMember.edit` builds its PATCH payload
without raising, each of `nick`, `mute`, `deaf`, `channel_id` and
`communication_disabled_until` appears in the payload iff the argument
was explicitly supplied — but `roles` appears iff the supplied value is
an actual list: an explicit non-list `None` adds no key. -/
theorem claim_C6 (now : Int) (a : EditArgs) (p : EditPayload)
    (h : buildEditPayload now a = .ok p) :
    (p.nick.isSome ↔ a.nick.isSome) ∧
    (p.roles.isSome ↔ ∃ l, a.roles = some (some l)) ∧
    (p.mute.isSome ↔ a.mute.isSome) ∧
    (p.deaf.isSome ↔ a.deaf.isSome) ∧
    (p.channel_id.isSome ↔ a.channel_id.isSome) ∧
    (p.communication_disabled_until.isSome ↔
      a.communication_disabled_until.isSome) := by
  rcases a with ⟨n, r, mu, de, c, ch⟩
  rcases c with _ | t
  · simp only [buildEditPayload] at h
    cases h
    rcases r with _ | _ | l <;> simp
  · rcases t <;> simp only [buildEditPayload, resolveTimeout] at h <;> cases h <;>
      rcases r with _ | _ | l <;> simp

/-- Witness for C6: a concrete edit supplying `nick` and a real role
list, with the other arguments left at `MISSING`. -/
theorem claim_C6_witness :
    (((some (some "abc") : Option (Option String)).isSome ↔
        (some (some "abc") : Option (Option String)).isSome) ∧
      ((some [5, 9] : Option (List Int)).isSome ↔
        ∃ l, (some (some [5, 9]) : Option (Option (List Int))) = some (some l)) ∧
      ((Option.none : Option (Option Bool)).isSome ↔
        (Option.none : Option (Option Bool)).isSome) ∧
      ((Option.none : Option (Option Bool)).isSome ↔
        (Option.none : Option (Option Bool)).isSome) ∧
      ((Option.none : Option (Option Int)).isSome ↔
        (Option.none : Option (Option Int)).isSome) ∧
      ((Option.none : Option String).isSome ↔
        (Option.none : Option TimeoutArg).isSome)) :=
  claim_C6 0
    ⟨some (some "abc"), some (some [5, 9]), Option.none, Option.none,
      Option.none, Option.none⟩
    ⟨some (some "abc"), some [5, 9], Option.none, Option.none,
      Option.none, Option.none⟩
    rfl

/-- Counterexample to C6 as stated: `roles` is explicitly supplied with
the value `None`, yet the successfully built payload contains no `roles`
key, refuting "a key appears in the payload iff the corresponding
argument was explicitly supplied". -/
theorem claim_C6_counterexample :
    (( ⟨Option.none, some Option.none, Option.none, Option.none,
        Option.none, Option.none⟩ : EditArgs).roles.isSome = true) ∧
    Except.map EditPayload.roles
      (buildEditPayload 0
        ⟨Option.none, some Option.none, Option.none, Option.none,
          Option.none, Option.none⟩) = .ok Option.none := by
  exact ⟨rfl, rfl⟩

/-- C10: explicitly supplying `None` for `roles` is silently ignored —
the build is identical to leaving `roles` at `MISSING`, and any payload
it produces carries no `roles` key. -/
theorem claim_C10 :
    ∀ (now : Int) (a : EditArgs),
      buildEditPayload now
          ⟨a.nick, some Option.none, a.mute, a.deaf,
            a.communication_disabled_until, a.channel_id⟩ =
        buildEditPayload now
          ⟨a.nick, Option.none, a.mute, a.deaf,
            a.communication_disabled_until, a.channel_id⟩ ∧
      Except.map EditPayload.roles
          (buildEditPayload now
            ⟨a.nick, some Option.none, a.mute, a.deaf,
              a.communication_disabled_until, a.channel_id⟩) =
        Except.map (fun _ => (Option.none : Option (List Int)))
          (buildEditPayload now
            ⟨a.nick, some Option.none, a.mute, a.deaf,
              a.communication_disabled_until, a.channel_id⟩) := by
  intro now a
  rcases a with ⟨n, r, mu, de, c, ch⟩
  rcases c with _ | t
  · exact ⟨rfl, rfl⟩
  · rcases t <;> exact ⟨rfl, rfl⟩

/-- C5: `add_roles` issues exactly one `PUT` request per role argument,
sequentially in argument order: when every dispatcher call succeeds the
trace is one request per role, in order; when a call fails, the error
propagates, every earlier role's call was issued and succeeded, the
failing role's call was issued, and no request is issued for any later
role. -/
theorem claim_C5 (ε : Type) (m : PartialMember)
    (disp : RoleRequest → Except ε Unit) (reason : Option String)
    (roles : List RoleRef) :
    (∀ trace, m.add_roles disp reason roles = (trace, Option.none) →
      trace = roles.map (m.roleRequest reason)) ∧
    (∀ trace e, m.add_roles disp reason roles = (trace, some e) →
      ∃ pre fail post,
        roles = pre ++ fail :: post ∧
        trace = (pre ++ [fail]).map (m.roleRequest reason) ∧
        (∀ x ∈ pre, disp (m.roleRequest reason x) = .ok ()) ∧
        disp (m.roleRequest reason fail) = .error e) := by
  induction roles with
  | nil =>
    constructor
    · intro trace h
      simp only [PartialMember.add_roles] at h
      injection h with h1 h2
      rw [← h1]
      simp
    · intro trace e h
      simp only [PartialMember.add_roles] at h
      injection h with h1 h2
      exact Option.noConfusion h2
  | cons r rs ih =>
    constructor
    · intro trace h
      simp only [PartialMember.add_roles] at h
      cases hd : disp (m.roleRequest reason r) with
      | error e0 =>
        simp only [hd] at h
        injection h with h1 h2
        exact Option.noConfusion h2
      | ok u =>
        simp only [hd] at h
        injection h with h1 h2
        have hrs : m.add_roles disp reason rs =
            ((m.add_roles disp reason rs).1, Option.none) := by
          rw [← h2]
        have hm := ih.1 (m.add_roles disp reason rs).1 hrs
        rw [← h1, hm]
        simp
    · intro trace e h
      simp only [PartialMember.add_roles] at h
      cases hd : disp (m.roleRequest reason r) with
      | error e0 =>
        simp only [hd] at h
        injection h with h1 h2
        injection h2 with h2
        refine ⟨[], r, rs, by simp, ?_, by simp, ?_⟩
        · rw [← h1]
          simp
        · rw [hd, h2]
      | ok u =>
        cases u
        simp only [hd] at h
        injection h with h1 h2
        have hrs : m.add_roles disp reason rs =
            ((m.add_roles disp reason rs).1, some e) := by
          rw [← h2]
        obtain ⟨pre, fail, post, hroles, htrace, hpre, hfail⟩ :=
          ih.2 (m.add_roles disp reason rs).1 e hrs
        refine ⟨r :: pre, fail, post, by rw [hroles]; simp, ?_, ?_, hfail⟩
        · rw [← h1, htrace]
          simp
        · intro x hx
          rcases List.mem_cons.mp hx with hx | hx
          · rw [hx, hd]
          · exact hpre x hx

/-- Dispatcher used by the C5 witness: fails exactly on the request for
role 20 of member 2 in guild 1. -/
def dispW : RoleRequest → Except String Unit :=
  fun req => if req.path = rolePath 1 2 20 then .error "boom" else .ok ()

/-- Witness for C5: two roles, the second one's dispatcher call fails —
the trace is the call for role 10 (which succeeded) followed by the call
for role 20 (which failed), and no later call. -/
theorem claim_C5_witness :
    ∃ pre fail post,
      ([RoleRef.raw 10, RoleRef.raw 20] : List RoleRef) = pre ++ fail :: post ∧
      (PartialMember.add_roles ⟨2, 1⟩ dispW Option.none
          [RoleRef.raw 10, RoleRef.raw 20]).1 =
        (pre ++ [fail]).map (PartialMember.roleRequest ⟨2, 1⟩ Option.none) ∧
      (∀ x ∈ pre,
        dispW (PartialMember.roleRequest ⟨2, 1⟩ Option.none x) = .ok ()) ∧
      dispW (PartialMember.roleRequest ⟨2, 1⟩ Option.none fail) =
        .error "boom" :=
  (claim_C5 String ⟨2, 1⟩ dispW Option.none
      [RoleRef.raw 10, RoleRef.raw 20]).2
    (PartialMember.add_roles ⟨2, 1⟩ dispW Option.none
      [RoleRef.raw 10, RoleRef.raw 20]).1
    "boom" (by decide)

/-- C7: `display_name` returns the nickname when it is non-empty, else
the user's global display name when it is non-empty, else the username —
first non-empty tier wins (`None` and the empty string are both falsy in
the source's `or` chain). -/
theorem claim_C7 (m : Member) :
    (∀ s, m.nick = some s → s ≠ "" → m.display_name = s) ∧
    (strTruthy m.nick = false →
      ∀ g, m.user.global_name = some g → g ≠ "" → m.display_name = g) ∧
    (strTruthy m.nick = false → strTruthy m.user.global_name = false →
      m.display_name = m.user.name) := by
  refine ⟨?_, ?_, ?_⟩
  · intro s hs hne
    simp [Member.display_name, strTruthy, hs, hne]
  · intro hn g hg hne
    simp only [Member.display_name, hn]
    simp [strTruthy, hg, hne]
  · intro hn hg
    simp [Member.display_name, hn, hg]

/-- Witness for C7: a member hydrated with nickname `"Nick"`, global name
`"Global"` and username `"username"` displays as `"Nick"`. -/
theorem claim_C7_witness :
    (Member.ofData 1
      ⟨⟨2, "username", some "Global"⟩, 0, Option.none, Option.none,
        some "Nick", 0, [], Option.none⟩).display_name = "Nick" :=
  (claim_C7 (Member.ofData 1
      ⟨⟨2, "username", some "Global"⟩, 0, Option.none, Option.none,
        some "Nick", 0, [], Option.none⟩)).1 "Nick" rfl (by decide)

/-- C8: for `PartialMember`, `ThreadMember` and every hydrated `Member`,
string conversion renders the numeric identifier in decimal and equality
is by the numeric identifier (the latter inherited from the identifier
base, modelled from the spec since object.py and user.py are not in the
excerpt). -/
theorem claim_C8 :
    (∀ m : PartialMember, m.str = toString m.id ∧
      ∀ b : PartialMember, (m.idEq b = true ↔ m.id = b.id)) ∧
    (∀ t : ThreadMember, t.str = toString t.id ∧
      ∀ b : ThreadMember, (t.idEq b = true ↔ t.id = b.id)) ∧
    (∀ (gid : Int) (d : MemberData),
      (Member.ofData gid d).str = toString (Member.ofData gid d).id ∧
      ∀ b : Member, ((Member.ofData gid d).idEq b = true ↔
        (Member.ofData gid d).id = b.id)) := by
  refine ⟨fun m => ⟨rfl, fun b => ?_⟩, fun t => ⟨rfl, fun b => ?_⟩,
      fun gid d => ⟨rfl, fun b => ?_⟩⟩ <;>
    simp [PartialMember.idEq, ThreadMember.idEq, Member.idEq]

/-- C9: a hydrated `Member`'s identifier equals the identifier embedded in
its payload's `user` sub-document and its guild identifier equals the
parent guild it was constructed with; `edit` returns a fresh `Member`
hydrated entirely from the PATCH response (with the caller's guild id) —
the receiver, a pure value in this embedding just as it is never written
to in the source, is untouched. -/
theorem claim_C9 (gid : Int) (d : MemberData) (m : PartialMember)
    (now : Int) (a : EditArgs) (resp : MemberData) :
    (Member.ofData gid d).id = d.user.id ∧
    (Member.ofData gid d).guild_id = gid ∧
    (∀ p mem, m.edit now a resp = .ok (p, mem) →
      mem = Member.ofData m.guild_id resp ∧
      mem.id = resp.user.id ∧ mem.guild_id = m.guild_id) := by
  refine ⟨rfl, rfl, ?_⟩
  intro p mem h
  cases hb : buildEditPayload now a with
  | error e =>
    simp only [PartialMember.edit, hb] at h
    exact Except.noConfusion h
  | ok q =>
    simp only [PartialMember.edit, hb] at h
    injection h with h1
    injection h1 with h1 h2
    rw [← h2]
    exact ⟨rfl, rfl, rfl⟩

/-- Witness for C9: member 2 of guild 1 edited with no arguments; the
PATCH response hydrates back into a fresh `Member` with identifier 2 and
guild identifier 1. -/
theorem claim_C9_witness :
    Member.ofData 1
        ⟨⟨2, "u", Option.none⟩, 4, Option.none, Option.none, Option.none,
          0, [7], Option.none⟩ =
      Member.ofData 1
        ⟨⟨2, "u", Option.none⟩, 4, Option.none, Option.none, Option.none,
          0, [7], Option.none⟩ ∧
    (Member.ofData 1
        ⟨⟨2, "u", Option.none⟩, 4, Option.none, Option.none, Option.none,
          0, [7], Option.none⟩).id = 2 ∧
    (Member.ofData 1
        ⟨⟨2, "u", Option.none⟩, 4, Option.none, Option.none, Option.none,
          0, [7], Option.none⟩).guild_id = 1 := by
  have h := (claim_C9 1
      ⟨⟨2, "u", Option.none⟩, 4, Option.none, Option.none, Option.none,
        0, [7], Option.none⟩
      ⟨2, 1⟩ 0 EditArgs.missing
      ⟨⟨2, "u", Option.none⟩, 4, Option.none, Option.none, Option.none,
        0, [7], Option.none⟩).2.2
    ⟨Option.none, Option.none, Option.none, Option.none, Option.none,
      Option.none⟩
    (Member.ofData 1
      ⟨⟨2, "u", Option.none⟩, 4, Option.none, Option.none, Option.none,
        0, [7], Option.none⟩)
    rfl
  exact ⟨h.1, h.2.1, h.2.2⟩

end DiscordHttp
